import Mathlib

/-!
Verification of the Indevolt API client (`src/indevolt_api/client.py`).

The development shallowly embeds the two components of the library:

* UDP device discovery (`DeviceDiscoveryProtocol.datagram_received`,
  `async_discover`): datagram handling is modelled as a step function on the
  protocol state, with the result of `json.loads(data.decode("utf-8"))`
  supplied as an oracle (`Option Json`, `none` meaning `JSONDecodeError` /
  `UnicodeDecodeError`).  The control flow of `async_discover` is modelled
  both as a result function and as an explicit action trace.

* the HTTP RPC client (`IndevoltAPI._request`, `fetch_data`, `set_data`,
  `get_config`): the network is abstracted as an `HttpOutcome` (timeout,
  transport error, or a status/parsed-body pair); payload construction
  including `json.dumps(...).replace(" ", "")` is modelled exactly, down to
  the characters of the serialized `config` query parameter.

Python exceptions are modelled by `Except PyError`.
-/

namespace Indevolt

/-- Parsed JSON values, as returned by Python's `json.loads`.  Objects are
modelled as association lists in insertion order (Python dicts preserve
insertion order, and `json.loads` produces unique keys).  Numbers are
restricted to integers, which covers every payload this library builds. -/
inductive Json where
  | null
  | bool (b : Bool)
  | num (n : Int)
  | str (s : String)
  | arr (xs : List Json)
  | obj (kvs : List (String × Json))

/-- Python exceptions that the embedded code can raise. -/
inductive PyError where
  | timeOutException (msg : String)
  | apiException (msg : String)
  | typeError
  | attributeError
deriving DecidableEq

/-- First value stored under key `k` (Python `dict` lookup; keys are unique
in any dict produced by `json.loads`). -/
def objGet : List (String × Json) → String → Option Json
  | [], _ => none
  | (key, v) :: rest, k => if key == k then some v else objGet rest k

/-- Python `d[k] = v` on a dict: replace the value in place if the key is
present (keeping its position), otherwise append the new entry at the end. -/
def objSet : List (String × Json) → String → Json → List (String × Json)
  | [], k, v => [(k, v)]
  | (key, w) :: rest, k, v =>
      if key == k then (k, v) :: rest else (key, w) :: objSet rest k v

/- ----------------------------------------------------------------- -/
/- Discovery: `DiscoveredDevice` and `DeviceDiscoveryProtocol`        -/
/- ----------------------------------------------------------------- -/

/-- `DiscoveredDevice` (client.py lines 29-46).  `port` and `name` hold
whatever JSON value the response carried (`port` defaults to `8080`, `name`
to Python `None`, modelled as `Json.null`); `metadata` is the `**kwargs`
dict, i.e. the remaining key/value pairs in insertion order. -/
structure DiscoveredDevice where
  host : String
  port : Json
  name : Json
  metadata : List (String × Json)

/-- One incoming UDP datagram: the sender address `addr[0]` and the oracle
result of `json.loads(data.decode("utf-8"))` (`none` = decode/parse error). -/
structure Datagram where
  host : String
  parsed : Option Json

/-- State of `DeviceDiscoveryProtocol`: `devices` and `received_ips`
(client.py lines 56-60).  The Python set is modelled as a list queried only
through membership. -/
structure ProtoState where
  devices : List DiscoveredDevice
  received_ips : List String

/-- `DeviceDiscoveryProtocol.datagram_received` (client.py lines 70-98).

* A host already in `received_ips` is ignored.
* On parse failure, `DiscoveredDevice(host=host)` is recorded.
* On parse success with a non-dict value, `response.get` raises
  `AttributeError` (uncaught), leaving the state unchanged.
* On a dict, the keys other than `"port"`/`"name"` are passed as `**kwargs`
  to `DiscoveredDevice`; a surviving key `"host"` (or `"self"`) collides
  with an already-bound parameter of `__init__`, so CPython raises
  `TypeError` before the device is appended, leaving the state unchanged.

An exception escaping `datagram_received` is logged by the asyncio event
loop; the transport keeps delivering later datagrams. -/
def datagram_received (st : ProtoState) (d : Datagram) : Except PyError ProtoState :=
  if st.received_ips.contains d.host then .ok st
  else
    match d.parsed with
    | none =>
        .ok ⟨st.devices ++ [⟨d.host, .num 8080, .null, []⟩],
             st.received_ips ++ [d.host]⟩
    | some (.obj kvs) =>
        let extra := kvs.filter (fun kv => kv.1 != "port" && kv.1 != "name")
        if extra.any (fun kv => kv.1 == "host" || kv.1 == "self") then
          .error .typeError
        else
          .ok ⟨st.devices ++
                 [⟨d.host, (objGet kvs "port").getD (.num 8080),
                   (objGet kvs "name").getD .null, extra⟩],
               st.received_ips ++ [d.host]⟩
    | some _ => .error .attributeError

/-- Initial protocol state. -/
def initProto : ProtoState := ⟨[], []⟩

/-- Deliver a sequence of datagrams to one discovery run.  An exception in
the handler leaves the state unchanged (the event loop logs it and keeps
running). -/
def runDiscovery (ds : List Datagram) : ProtoState :=
  ds.foldl
    (fun st d =>
      match datagram_received st d with
      | .ok st2 => st2
      | .error _ => st)
    initProto

/- ----------------------------------------------------------------- -/
/- Discovery: `async_discover`                                        -/
/- ----------------------------------------------------------------- -/

/-- Discovery configuration constants (client.py lines 21-26). -/
def DISCOVERY_PORT : Nat := 10000

/-- Broadcast destination port (client.py line 23). -/
def BROADCAST_PORT : Nat := 8099

/-- The fixed broadcast probe payload (client.py line 24). -/
def DISCOVERY_MESSAGE : String := "AT+IGDEVICEIP"

/-- Default discovery timeout in seconds (client.py line 25). -/
def DISCOVERY_TIMEOUT : ℚ := 3

/-- Result of `sock.bind(("0.0.0.0", DISCOVERY_PORT))` (client.py
lines 128-134): success, or an `OSError` with its message. -/
inductive BindResult where
  | bound
  | bindError (msg : String)

/-- Outcome of the `try` block after a successful bind (client.py
lines 138-153): either an exception during endpoint setup / send (before
the `asyncio.sleep` completes any listening), or a completed listen window
together with the datagrams the transport delivered during it.
`asyncio.sleep(timeout)` itself only raises on external cancellation,
which is outside this model. -/
inductive ListenPhase where
  | setupError (msg : String)
  | completed (evs : List Datagram)

/-- `async_discover` (client.py lines 101-161), as a result function of the
bind outcome and the listen phase.  Timeouts and real time do not affect
the returned value, only the trace (see `discoverTrace`).

* bind `OSError`: logged, socket closed, `return []` (lines 131-134);
* exception in the `try` block: logged, `return []` (lines 155-157);
* normal completion: `return protocol.devices` (line 153).

Totality of this function is the embedding of "discovery never raises". -/
def async_discover (b : BindResult) (ph : ListenPhase) : List DiscoveredDevice :=
  match b with
  | .bindError _ => []
  | .bound =>
    match ph with
    | .setupError _ => []
    | .completed evs => (runDiscovery evs).devices

/-- Observable actions of one `async_discover` run, in program order. -/
inductive DiscAction where
  | bindOk
  | bindFail (msg : String)
  | createEndpoint
  | sendBroadcast (msg : String)
  | sleep (secs : ℚ)
  | closeTransport
  | closeSocket
  | ret (devices : List DiscoveredDevice)

/-- Action trace of `async_discover` (client.py lines 124-161).

* Bind failure: log, `sock.close()`, `return []` (lines 131-134); the
  `finally` block then sees an already-closed socket and does nothing.
* Exception during endpoint setup or send: `return []` from the `except`
  arm, with the `finally` block closing the socket first (lines 155-161).
* Normal run: endpoint created, one broadcast sent, a full
  `asyncio.sleep(timeout)`, `transport.close()`, and the `finally` block
  closes the underlying socket (transport closure is deferred to the next
  loop iteration, so `sock._closed` is still false there); then the
  accumulated device list is returned (lines 139-153, 159-161). -/
def discoverTrace (timeout : ℚ) (b : BindResult) (ph : ListenPhase) :
    List DiscAction :=
  match b with
  | .bindError m => [.bindFail m, .closeSocket, .ret []]
  | .bound =>
    match ph with
    | .setupError _ => [.bindOk, .closeSocket, .ret []]
    | .completed evs =>
        [.bindOk, .createEndpoint, .sendBroadcast DISCOVERY_MESSAGE,
         .sleep timeout, .closeTransport, .closeSocket,
         .ret (runDiscovery evs).devices]

/- ----------------------------------------------------------------- -/
/- RPC client: payload serialization                                  -/
/- ----------------------------------------------------------------- -/

/-- Decimal digit characters (used by the model of CPython's integer
`repr`, which `json.dumps` uses for `int` values). -/
def digitChar : Nat → Char
  | 0 => '0'
  | 1 => '1'
  | 2 => '2'
  | 3 => '3'
  | 4 => '4'
  | 5 => '5'
  | 6 => '6'
  | 7 => '7'
  | 8 => '8'
  | _ => '9'

/-- Fuelled decimal rendering of a natural number, most significant digit
first.  `fuel = n + 1` always suffices since `n / 10 < n` for `n ≥ 10`. -/
def natDigits : Nat → Nat → List Char
  | 0, _ => []
  | fuel + 1, n =>
      if n < 10 then [digitChar n]
      else natDigits fuel (n / 10) ++ [digitChar (n % 10)]

/-- Decimal rendering of an integer, as CPython's `repr` produces it. -/
def intStr : Int → List Char
  | .ofNat m => natDigits (m + 1) m
  | .negSucc m => '-' :: natDigits (m + 2) (m + 1)

/-- JSON rendering of a plain key string (none of the keys this library
emits needs escaping). -/
def jstr (s : String) : List Char := '"' :: s.data ++ ['"']

/-- Join pieces with a separator (the `item_separator` of `json.dumps`). -/
def sepJoin (sep : List Char) : List (List Char) → List Char
  | [] => []
  | [x] => x
  | x :: y :: rest => x ++ sep ++ sepJoin sep (y :: rest)

/-- Characters of `json.dumps({"t": ts})`, parameterized by the key and
item separators (Python's defaults are `": "` and `", "`). -/
def dumpsGetData (colon comma : List Char) (ts : List Int) : List Char :=
  '\x7b' :: (jstr "t" ++ colon ++
    ('[' :: sepJoin comma (ts.map intStr) ++ [']', '\x7d']))

/-- Characters of `json.dumps({"f": f, "t": t, "v": v})`, parameterized by
the key and item separators (keys in dict insertion order, client.py
line 279). -/
def dumpsSetData (colon comma : List Char) (f t : Int) (v : List Int) :
    List Char :=
  '\x7b' :: (jstr "f" ++ colon ++ intStr f ++ comma ++
    jstr "t" ++ colon ++ intStr t ++ comma ++
    jstr "v" ++ colon ++
    ('[' :: sepJoin comma (v.map intStr) ++ [']', '\x7d']))

/-- `str.replace(" ", "")` (client.py line 226): every space character is
removed. -/
def removeSpaces (s : String) : String :=
  ⟨s.data.filter (fun c => c != ' ')⟩

/-- `f"http://{host}:{port}/rpc"` (client.py line 185). -/
def base_url (host : String) (port : Nat) : String :=
  "http://" ++ host ++ ":" ++ toString port ++ "/rpc"

/-- `f"{self.base_url}/{endpoint}?config={config_param}"` (client.py
line 227): the serialized payload travels in the query parameter named
`config`. -/
def request_url (base endpoint configParam : String) : String :=
  base ++ "/" ++ endpoint ++ "?config=" ++ configParam

/- ----------------------------------------------------------------- -/
/- RPC client: argument coercion and operations                       -/
/- ----------------------------------------------------------------- -/

/-- A point identifier or value as the caller passes it: a Python `int` or
`str` (the types the library documents for `t` and `v`). -/
inductive PyScalar where
  | int (n : Int)
  | str (s : String)

/-- CPython `int(str)` on an optionally-signed digit string; `none` models
`ValueError`.  (Surrounding whitespace and `_` digit grouping, which
CPython also accepts, are not modelled; no claim depends on them.) -/
def strToInt (s : String) : Option Int :=
  let digitVal : Char → Option Nat := fun c =>
    if c == '0' then some 0 else if c == '1' then some 1
    else if c == '2' then some 2 else if c == '3' then some 3
    else if c == '4' then some 4 else if c == '5' then some 5
    else if c == '6' then some 6 else if c == '7' then some 7
    else if c == '8' then some 8 else if c == '9' then some 9 else none
  let digits : List Char → Option Nat := fun cs =>
    if cs.isEmpty then none
    else cs.foldl
      (fun acc c => match acc, digitVal c with
        | some a, some d => some (a * 10 + d)
        | _, _ => none)
      (some 0)
  match s.data with
  | '-' :: rest => (digits rest).map (fun n => -(n : Int))
  | '+' :: rest => (digits rest).map (fun n => (n : Int))
  | cs => (digits cs).map (fun n => (n : Int))

/-- `int(item)` on an identifier or value (client.py lines 252, 275-276). -/
def pyToInt : PyScalar → Option Int
  | .int n => some n
  | .str s => strToInt s

/-- An argument that may be a single scalar or a Python list of scalars. -/
inductive PyArg where
  | scalar (v : PyScalar)
  | list (vs : List PyScalar)

/-- `if not isinstance(x, list): x = [x]` (client.py lines 249-250,
272-273): normalize to a list. -/
def pyArgList : PyArg → List PyScalar
  | .scalar v => [v]
  | .list vs => vs

/-- `[int(item) for item in t]` after normalization (client.py
lines 249-252); `none` models `ValueError` from `int`. -/
def fetch_payload (t : PyArg) : Option (List Int) :=
  (pyArgList t).mapM pyToInt

/-- The endpoint and serialized `config` parameter that `fetch_data`
hands to `_request` (client.py lines 254, 226-227): the payload
`{"t": t_int}` is `json.dumps`-serialized with default separators and the
spaces are then removed. -/
def fetch_request (t : PyArg) : Option (String × String) :=
  (fetch_payload t).map (fun ns =>
    ("Indevolt.GetData",
     removeSpaces ⟨dumpsGetData [':', ' '] [',', ' '] ns⟩))

/-- The endpoint and serialized `config` parameter that `set_data` hands
to `_request` (client.py lines 271-280): the payload
`{"f": 16, "t": int(t), "v": [int(item) for item in v]}`. -/
def set_request (t : PyScalar) (v : PyArg) : Option (String × String) :=
  match pyToInt t, (pyArgList v).mapM pyToInt with
  | some tn, some vns =>
      some ("Indevolt.SetData",
        removeSpaces ⟨dumpsSetData [':', ' '] [',', ' '] 16 tn vns⟩)
  | _, _ => none

/-- Abstraction of one HTTP exchange as the client observes it:
the wait timed out (`asyncio.TimeoutError`), the transport failed or the
body failed to parse (`aiohttp.ClientError`, with its message), or a
response arrived with a status code and a parsed JSON body. -/
inductive HttpOutcome where
  | timeout
  | clientError (msg : String)
  | response (status : Nat) (body : Json)

/-- The `try`/`except` of `IndevoltAPI._request` (client.py lines 229-238):

* timeout → `TimeOutException(f"{endpoint} Request timed out")`;
* `aiohttp.ClientError` → `APIException(f"{endpoint} Network error: {err}")`;
* non-200 status → `APIException(f"HTTP status error: {response.status}")`
  (raised inside the `try`, and not caught by either `except` arm since
  `APIException` is neither a `TimeoutError` nor a `ClientError`);
* 200 → the parsed body.

The function consumes exactly one outcome: no retry. -/
def reqOutcome (endpoint : String) (o : HttpOutcome) : Except PyError Json :=
  match o with
  | .timeout => .error (.timeOutException (endpoint ++ " Request timed out"))
  | .clientError e =>
      .error (.apiException (endpoint ++ " Network error: " ++ e))
  | .response s body =>
      if s != 200 then
        .error (.apiException ("HTTP status error: " ++ toString s))
      else .ok body

/-- `fetch_data` (client.py lines 240-254): coerce the argument, then one
`_request` to `"Indevolt.GetData"`.  `none` models the `ValueError` raised
by `int` before any request is made. -/
def fetch_data (t : PyArg) (o : HttpOutcome) : Option (Except PyError Json) :=
  (fetch_payload t).map (fun _ => reqOutcome "Indevolt.GetData" o)

/-- `set_data` (client.py lines 256-280): coerce the arguments, then one
`_request` to `"Indevolt.SetData"`. -/
def set_data (t : PyScalar) (v : PyArg) (o : HttpOutcome) :
    Option (Except PyError Json) :=
  match pyToInt t, (pyArgList v).mapM pyToInt with
  | some _, some _ => some (reqOutcome "Indevolt.SetData" o)
  | _, _ => none

/-- `2 if device_type in ["CMS-SP2000", "CMS-SF2000"] else 1` (client.py
lines 299-301).  A non-string JSON value compares unequal to both model
names, hence generation 1. -/
def genOf : Json → Int
  | .str "CMS-SP2000" => 2
  | .str "CMS-SF2000" => 2
  | _ => 1

/-- Does the first list start the second? -/
def startsChars : List Char → List Char → Bool
  | [], _ => true
  | _ :: _, [] => false
  | a :: as, b :: bs => a == b && startsChars as bs

/-- Does `needle` occur contiguously inside `hay`? -/
def hasSubChars (needle : List Char) : List Char → Bool
  | [] => needle.isEmpty
  | c :: rest => startsChars needle (c :: rest) || hasSubChars needle rest

/-- Python `k in x` for a string `k`, as `get_config` uses it on parsed
JSON: key test on a dict, membership on a list (a non-string element is
never equal to `k`), substring test on a string, `TypeError` otherwise. -/
def pyContains (j : Json) (k : String) : Except PyError Bool :=
  match j with
  | .obj kvs => .ok (kvs.any (fun kv => kv.1 == k))
  | .arr xs =>
      .ok (xs.any (fun x => match x with | .str s => s == k | _ => false))
  | .str s => .ok (hasSubChars k.data s.data)
  | _ => .error .typeError

/-- The generation-enrichment step of `get_config` (client.py
lines 296-303): `if "device" in data and "type" in data["device"]`, then
`data["device"]["generation"] = 2 if ... else 1`, and `return data`.
Index operations on non-dict values raise `TypeError`.  The two `none`
arms are unreachable: a successful containment test on a dict guarantees
the subsequent lookup succeeds. -/
def enrich (data : Json) : Except PyError Json :=
  match pyContains data "device" with
  | .error e => .error e
  | .ok false => .ok data
  | .ok true =>
    match data with
    | .obj kvs =>
      match objGet kvs "device" with
      | none => .ok data
      | some dev =>
        match pyContains dev "type" with
        | .error e => .error e
        | .ok false => .ok data
        | .ok true =>
          match dev with
          | .obj dkvs =>
            match objGet dkvs "type" with
            | none => .ok data
            | some ty =>
                .ok (.obj (objSet kvs "device"
                  (.obj (objSet dkvs "generation" (.num (genOf ty))))))
          | _ => .error .typeError
    | _ => .error .typeError

/-- `get_config` (client.py lines 282-308): a GET to `"Sys.GetConfig"`,
with the same failure handling as `_request` and the enrichment step run
inside the `try` (a `TypeError` from it is caught by neither `except` arm
and propagates). -/
def get_config (o : HttpOutcome) : Except PyError Json :=
  match o with
  | .timeout => .error (.timeOutException "Sys.GetConfig Request timed out")
  | .clientError e =>
      .error (.apiException ("Sys.GetConfig Network error: " ++ e))
  | .response s body =>
      if s != 200 then
        .error (.apiException ("HTTP status error: " ++ toString s))
      else enrich body

/- ----------------------------------------------------------------- -/
/- Helper lemmas                                                      -/
/- ----------------------------------------------------------------- -/

theorem digitChar_ne_space (d : Nat) : digitChar d ≠ ' ' := by
  unfold digitChar
  split <;> decide

theorem natDigits_ne_space (fuel : Nat) :
    ∀ n, ∀ c ∈ natDigits fuel n, c ≠ ' ' := by
  induction fuel with
  | zero => intro n c hc; simp [natDigits] at hc
  | succ f ih =>
    intro n c hc
    unfold natDigits at hc
    split at hc
    · simp at hc
      subst hc
      exact digitChar_ne_space n
    · rcases List.mem_append.mp hc with h | h
      · exact ih _ c h
      · simp at h
        subst h
        exact digitChar_ne_space _

theorem intStr_ne_space (n : Int) : ∀ c ∈ intStr n, c ≠ ' ' := by
  intro c hc
  cases n with
  | ofNat m => exact natDigits_ne_space _ _ c hc
  | negSucc m =>
    simp only [intStr] at hc
    rcases List.mem_cons.mp hc with h | h
    · subst h; decide
    · exact natDigits_ne_space _ _ c h

theorem filter_space_intStr (n : Int) :
    (intStr n).filter (fun c => c != ' ') = intStr n :=
  List.filter_eq_self.mpr (fun c hc => by
    simpa [bne_iff_ne] using intStr_ne_space n c hc)

theorem filter_space_sepJoin (xs : List (List Char))
    (h : ∀ x ∈ xs, ∀ c ∈ x, c ≠ ' ') :
    (sepJoin [',', ' '] xs).filter (fun c => c != ' ') = sepJoin [','] xs := by
  induction xs with
  | nil => rfl
  | cons x xs ih =>
    have hx : x.filter (fun c => c != ' ') = x :=
      List.filter_eq_self.mpr (fun c hc => by
        simpa [bne_iff_ne] using h x (List.mem_cons_self x xs) c hc)
    cases xs with
    | nil => simpa [sepJoin] using hx
    | cons y rest =>
      have ih2 := ih (fun z hz c hc => h z (List.mem_cons_of_mem x hz) c hc)
      simp [sepJoin, List.filter_append, hx, ih2]

theorem filter_space_mapIntStr (v : List Int) :
    (sepJoin [',', ' '] (v.map intStr)).filter (fun c => c != ' ')
      = sepJoin [','] (v.map intStr) :=
  filter_space_sepJoin _ (by
    intro x hx c hc
    rcases List.mem_map.mp hx with ⟨n, _, rfl⟩
    exact intStr_ne_space n c hc)

/-- Removing the spaces from a default-separator `json.dumps` of
`{"t": ts}` yields exactly the compact (separator-free) serialization. -/
theorem removeSpaces_dumpsGetData (ts : List Int) :
    removeSpaces ⟨dumpsGetData [':', ' '] [',', ' '] ts⟩
      = ⟨dumpsGetData [':'] [','] ts⟩ := by
  simp only [removeSpaces, dumpsGetData, jstr]
  congr 1
  simp [List.filter_append, filter_space_mapIntStr]

/-- Removing the spaces from a default-separator `json.dumps` of
`{"f": f, "t": t, "v": v}` yields exactly the compact serialization. -/
theorem removeSpaces_dumpsSetData (f t : Int) (v : List Int) :
    removeSpaces ⟨dumpsSetData [':', ' '] [',', ' '] f t v⟩
      = ⟨dumpsSetData [':'] [','] f t v⟩ := by
  simp only [removeSpaces, dumpsSetData, jstr]
  congr 1
  simp [List.filter_append, filter_space_mapIntStr, filter_space_intStr]

/-- A string from which every space was removed contains no space. -/
theorem removeSpaces_no_space (s : String) : ' ' ∉ (removeSpaces s).data := by
  intro hc
  have := List.of_mem_filter hc
  simp at this

theorem objGet_any {l : List (String × Json)} {k : String} {v : Json}
    (h : objGet l k = some v) : l.any (fun kv => kv.1 == k) = true := by
  induction l with
  | nil => simp [objGet] at h
  | cons kv rest ih =>
    rcases kv with ⟨key, w⟩
    by_cases hk : key == k
    · simp [List.any_cons, hk]
    · simp only [objGet, hk] at h
      simp only [List.any_cons, hk, Bool.false_or]
      exact ih h

theorem objGet_objSet_self (l : List (String × Json)) (k : String) (v : Json) :
    objGet (objSet l k v) k = some v := by
  induction l with
  | nil => simp [objSet, objGet]
  | cons kv rest ih =>
    rcases kv with ⟨key, w⟩
    by_cases hk : key == k
    · simp [objSet, hk, objGet]
    · simp [objSet, hk, objGet, ih]

theorem objGet_objSet_ne (l : List (String × Json)) (k k' : String) (v : Json)
    (hkk : k' ≠ k) : objGet (objSet l k v) k' = objGet l k' := by
  induction l with
  | nil =>
    simp only [objSet, objGet]
    have : (k == k') = false := by
      simpa [beq_iff_eq] using (fun h => hkk h.symm)
    simp [this]
  | cons kv rest ih =>
    rcases kv with ⟨key, w⟩
    by_cases hk : key == k
    · have hkeq : key = k := by simpa [beq_iff_eq] using hk
      have h1 : (k == k') = false := by
        simpa [beq_iff_eq] using (fun h => hkk h.symm)
      have h2 : (key == k') = false := by
        simpa [beq_iff_eq, hkeq] using (fun h => hkk h.symm)
      simp [objSet, hk, objGet, h1, h2, hkeq]
    · simp [objSet, hk, objGet, ih]

/-- A JSON object with a top-level `"host"` key keeps it in the `**kwargs`
dict (only `"port"`/`"name"` are filtered out), triggering the duplicate
keyword-argument test of `datagram_received`. -/
theorem any_dupKey_of_host_mem (kvs : List (String × Json))
    (h : "host" ∈ kvs.map Prod.fst) :
    (kvs.filter (fun kv => kv.1 != "port" && kv.1 != "name")).any
      (fun kv => kv.1 == "host" || kv.1 == "self") = true := by
  rcases List.mem_map.mp h with ⟨⟨key, v⟩, hkv, hkey⟩
  simp only at hkey
  subst hkey
  refine List.any_eq_true.mpr ⟨("host", v), ?_, by simp⟩
  exact List.mem_filter.mpr ⟨hkv, by simp⟩

/- ----------------------------------------------------------------- -/
/- Claim theorems                                                     -/
/- ----------------------------------------------------------------- -/

/-- C1 (code-bug evidence).  The claim says the Device Record for a host
reflects the first datagram received from that host and that later
datagrams from the same host are discarded without effect.  Evaluating the
code at a run whose first datagram from `10.0.0.5` carries the JSON object
with the key `"host"` shows the opposite: the first datagram raises
`TypeError` inside the handler and produces no record (first conjunct),
and the returned record reflects the second datagram (its `name` is
`"Late"`, which only the second datagram carried). -/
theorem c1_record_reflects_second_datagram :
    (runDiscovery [⟨"10.0.0.5", some (.obj [("host", .str "10.0.0.5")])⟩]).devices
      = []
    ∧ (runDiscovery
        [⟨"10.0.0.5", some (.obj [("host", .str "10.0.0.5")])⟩,
         ⟨"10.0.0.5", some (.obj [("name", .str "Late")])⟩]).devices
      = [⟨"10.0.0.5", .num 8080, .str "Late", []⟩] :=
  ⟨rfl, rfl⟩

/-- C2 (code-bug evidence).  The claim says every JSON-object payload from
a fresh host yields a Device Record whose metadata holds all keys other
than `"port"`/`"name"`.  Evaluating the code on the payload
`\x7b"host": "10.0.0.9", "extra": 1\x7d` from the fresh host `10.0.0.9`
shows that the handler instead raises `TypeError` (the `"host"` key
collides with the `host` keyword argument of `DiscoveredDevice.__init__`),
and the run records nothing for that host. -/
theorem c2_json_object_host_key_no_record :
    datagram_received initProto
        ⟨"10.0.0.9", some (.obj [("host", .str "10.0.0.9"), ("extra", .num 1)])⟩
      = .error .typeError
    ∧ runDiscovery
        [⟨"10.0.0.9", some (.obj [("host", .str "10.0.0.9"), ("extra", .num 1)])⟩]
      = initProto :=
  ⟨rfl, rfl⟩

/-- C3: discovery never propagates an exception: it returns the empty list
on a bind failure (whatever the listen phase would have held) and on any
exception during the send/listen phase, and otherwise returns the list of
accumulated Device Records.  `async_discover` being a total function into
`List DiscoveredDevice` embeds "on every input it returns a (possibly
empty) list": every exception path of the source is caught and mapped to
`[]`. -/
theorem c3_discover_never_raises :
    (∀ m ph, async_discover (.bindError m) ph = [])
    ∧ (∀ m, async_discover .bound (.setupError m) = [])
    ∧ (∀ evs, async_discover .bound (.completed evs)
        = (runDiscovery evs).devices) :=
  ⟨fun _ _ => rfl, fun _ => rfl, fun _ => rfl⟩

/-- C10: a datagram from a not-yet-seen host whose payload is a JSON
object with a top-level `"host"` key makes `datagram_received` raise
`TypeError` (duplicate `host` argument of `DiscoveredDevice.__init__`);
the state gains neither a record nor a seen-set entry, so a later
well-formed datagram from the same host is still recorded. -/
theorem c10_host_key_typeerror (st : ProtoState) (h : String)
    (kvs : List (String × Json))
    (hfresh : st.received_ips.contains h = false)
    (hhost : "host" ∈ kvs.map Prod.fst) :
    datagram_received st ⟨h, some (.obj kvs)⟩ = .error .typeError
    ∧ datagram_received st ⟨h, some (.obj [])⟩
        = .ok ⟨st.devices ++ [⟨h, .num 8080, .null, []⟩],
               st.received_ips ++ [h]⟩ := by
  have hnot : h ∉ st.received_ips := by simpa using hfresh
  constructor
  · simp [datagram_received, hnot, any_dupKey_of_host_mem kvs hhost]
  · simp [datagram_received, hnot, objGet]

/-- Witness for C10 at a concrete state and payload. -/
theorem c10_host_key_typeerror_witness :
    (ProtoState.mk [] []).received_ips.contains "10.0.0.6" = false
    ∧ "host" ∈ ([("host", Json.str "x")].map Prod.fst)
    ∧ (datagram_received ⟨[], []⟩
          ⟨"10.0.0.6", some (.obj [("host", .str "x")])⟩ = .error .typeError
       ∧ datagram_received ⟨[], []⟩ ⟨"10.0.0.6", some (.obj [])⟩
          = .ok ⟨(ProtoState.mk [] []).devices ++ [⟨"10.0.0.6", .num 8080, .null, []⟩],
                 (ProtoState.mk [] []).received_ips ++ ["10.0.0.6"]⟩) :=
  ⟨rfl, by simp,
   c10_host_key_typeerror ⟨[], []⟩ "10.0.0.6" [("host", .str "x")] rfl (by simp)⟩

/-- C8: on every run that reaches the listen phase, the trace performs a
full `sleep timeout` strictly before the single `ret`, whatever datagrams
arrive and however many: there is no early exit on a response, and the
returned devices are computed from the entire event sequence (the window
is bounded by time, not by a response count).  Runs that never reach the
listen phase (bind failure, setup exception) receive no responses at all,
so the claim's "regardless of when responses arrive" is vacuous there;
the spec itself mandates their early abort. -/
theorem c8_full_timeout_no_early_exit (timeout : ℚ) (evs : List Datagram) :
    ∃ pre post,
      discoverTrace timeout .bound (.completed evs)
        = pre ++ [DiscAction.sleep timeout] ++ post
            ++ [DiscAction.ret (runDiscovery evs).devices]
      ∧ (∀ a ∈ pre, ∀ ds, a ≠ DiscAction.ret ds)
      ∧ (∀ a ∈ post, ∀ ds, a ≠ DiscAction.ret ds) := by
  refine ⟨[.bindOk, .createEndpoint, .sendBroadcast DISCOVERY_MESSAGE],
          [.closeTransport, .closeSocket], rfl, ?_, ?_⟩ <;>
    · intro a ha ds
      simp only [List.mem_cons, List.mem_singleton, List.not_mem_nil] at ha
      rcases ha with rfl | rfl | rfl | h <;> simp_all

/-- C9: on every code path of a discovery run — bind failure, exception in
the send/listen phase, or successful completion — the trace closes the
UDP socket before the final `ret`. -/
theorem c9_socket_released_every_path (timeout : ℚ) (b : BindResult)
    (ph : ListenPhase) :
    ∃ pre devs, discoverTrace timeout b ph = pre ++ [DiscAction.ret devs]
      ∧ DiscAction.closeSocket ∈ pre := by
  cases b with
  | bindError m => exact ⟨[.bindFail m, .closeSocket], [], rfl, by simp⟩
  | bound =>
    cases ph with
    | setupError m => exact ⟨[.bindOk, .closeSocket], [], rfl, by simp⟩
    | completed evs =>
        exact ⟨[.bindOk, .createEndpoint, .sendBroadcast DISCOVERY_MESSAGE,
                .sleep timeout, .closeTransport, .closeSocket],
               (runDiscovery evs).devices, rfl, by simp⟩

/-- C4: for each RPC operation, each model takes exactly one HTTP outcome
(no retry); a timeout yields `TimeOutException` whose message names the
endpoint, a transport-level error yields `APIException` naming the
endpoint and the underlying cause, and a non-200 status yields
`APIException` carrying the status code. -/
theorem c4_rpc_failure_semantics (t : PyArg) (pl : List Int) (tv : PyScalar)
    (tn : Int) (v : PyArg) (vns : List Int) (e : String) (s : Nat) (body : Json)
    (hpl : fetch_payload t = some pl)
    (ht : pyToInt tv = some tn)
    (hv : (pyArgList v).mapM pyToInt = some vns)
    (hs : s ≠ 200) :
    fetch_data t .timeout
      = some (.error (.timeOutException "Indevolt.GetData Request timed out"))
    ∧ fetch_data t (.clientError e)
      = some (.error (.apiException ("Indevolt.GetData Network error: " ++ e)))
    ∧ fetch_data t (.response s body)
      = some (.error (.apiException ("HTTP status error: " ++ toString s)))
    ∧ set_data tv v .timeout
      = some (.error (.timeOutException "Indevolt.SetData Request timed out"))
    ∧ set_data tv v (.clientError e)
      = some (.error (.apiException ("Indevolt.SetData Network error: " ++ e)))
    ∧ set_data tv v (.response s body)
      = some (.error (.apiException ("HTTP status error: " ++ toString s)))
    ∧ get_config .timeout
      = .error (.timeOutException "Sys.GetConfig Request timed out")
    ∧ get_config (.clientError e)
      = .error (.apiException ("Sys.GetConfig Network error: " ++ e))
    ∧ get_config (.response s body)
      = .error (.apiException ("HTTP status error: " ++ toString s)) := by
  have hs2 : (s != 200) = true := by simpa using hs
  refine ⟨?_, ?_, ?_, ?_, ?_, ?_, rfl, rfl, ?_⟩
  · simp [fetch_data, hpl, reqOutcome]
  · simp [fetch_data, hpl, reqOutcome]
  · simp [fetch_data, hpl, reqOutcome, hs2]
  · unfold set_data; rw [ht, hv]; rfl
  · unfold set_data; rw [ht, hv]; rfl
  · unfold set_data; rw [ht, hv]; simp [reqOutcome, hs2]
  · simp [get_config, hs2]

/-- Witness for C4: concrete arguments, a concrete transport error, and a
simulated HTTP 500. -/
theorem c4_rpc_failure_semantics_witness :
    fetch_payload (.scalar (.str "7101")) = some [7101]
    ∧ pyToInt (.int 47016) = some 47016
    ∧ (pyArgList (.scalar (.int 100))).mapM pyToInt = some [100]
    ∧ (500 : Nat) ≠ 200
    ∧ (fetch_data (.scalar (.str "7101")) .timeout
        = some (.error (.timeOutException "Indevolt.GetData Request timed out"))
      ∧ fetch_data (.scalar (.str "7101")) (.clientError "conn reset")
        = some (.error (.apiException ("Indevolt.GetData Network error: " ++ "conn reset")))
      ∧ fetch_data (.scalar (.str "7101")) (.response 500 (.obj []))
        = some (.error (.apiException ("HTTP status error: " ++ toString (500 : Nat))))
      ∧ set_data (.int 47016) (.scalar (.int 100)) .timeout
        = some (.error (.timeOutException "Indevolt.SetData Request timed out"))
      ∧ set_data (.int 47016) (.scalar (.int 100)) (.clientError "conn reset")
        = some (.error (.apiException ("Indevolt.SetData Network error: " ++ "conn reset")))
      ∧ set_data (.int 47016) (.scalar (.int 100)) (.response 500 (.obj []))
        = some (.error (.apiException ("HTTP status error: " ++ toString (500 : Nat))))
      ∧ get_config .timeout
        = .error (.timeOutException "Sys.GetConfig Request timed out")
      ∧ get_config (.clientError "conn reset")
        = .error (.apiException ("Sys.GetConfig Network error: " ++ "conn reset"))
      ∧ get_config (.response 500 (.obj []))
        = .error (.apiException ("HTTP status error: " ++ toString (500 : Nat)))) :=
  ⟨by decide, rfl, by decide, by decide,
   c4_rpc_failure_semantics (.scalar (.str "7101")) [7101] (.int 47016) 47016
     (.scalar (.int 100)) [100] "conn reset" 500 (.obj [])
     (by decide) rfl (by decide) (by decide)⟩

/-- C5: `fetch_data` normalizes its argument to a list and coerces each
identifier with `int`; a scalar argument and its singleton-list form
produce the same outgoing request; the request goes to
`"Indevolt.GetData"` with the compact serialization of
`\x7b"t": [ids...]\x7d` as its `config` parameter. -/
theorem c5_fetch_normalization (x : PyScalar) (vs : List PyScalar)
    (ns : List Int) (h : vs.mapM pyToInt = some ns) :
    fetch_request (.scalar x) = fetch_request (.list [x])
    ∧ fetch_request (.list vs)
        = some ("Indevolt.GetData", ⟨dumpsGetData [':'] [','] ns⟩) := by
  refine ⟨rfl, ?_⟩
  have hp : fetch_payload (.list vs) = some ns := h
  simp [fetch_request, hp, removeSpaces_dumpsGetData]

/-- Witness for C5 at the spec's example `"7101"`, together with the
concrete value of the compact payload string. -/
theorem c5_fetch_normalization_witness :
    [PyScalar.str "7101"].mapM pyToInt = some [7101]
    ∧ (fetch_request (.scalar (.str "7101")) = fetch_request (.list [.str "7101"])
       ∧ fetch_request (.list [.str "7101"])
          = some ("Indevolt.GetData", ⟨dumpsGetData [':'] [','] [7101]⟩))
    ∧ (⟨dumpsGetData [':'] [','] [7101]⟩ : String) = "\x7b\"t\":[7101]\x7d" :=
  ⟨by decide,
   c5_fetch_normalization (.str "7101") [.str "7101"] [7101] (by decide),
   by decide⟩

/-- C6: `set_data` coerces the point to an integer, wraps a single value
into a one-element list and coerces each value; the request goes to
`"Indevolt.SetData"` and its `config` query parameter is the compact
serialization of `\x7b"f": 16, "t": int(t), "v": [ints...]\x7d`, which
contains no space character. -/
theorem c6_set_data_payload (tv : PyScalar) (tn : Int) (v : PyArg)
    (vns : List Int) (ht : pyToInt tv = some tn)
    (hv : (pyArgList v).mapM pyToInt = some vns) :
    set_request tv v
      = some ("Indevolt.SetData", ⟨dumpsSetData [':'] [','] 16 tn vns⟩)
    ∧ ' ' ∉ (String.mk (dumpsSetData [':'] [','] 16 tn vns)).data := by
  have h1 := removeSpaces_dumpsSetData 16 tn vns
  constructor
  · unfold set_request; rw [ht, hv]; simp [h1]
  · rw [← h1]
    exact removeSpaces_no_space _

/-- Witness for C6 at the spec's example `set_data(47016, 100)`, together
with the concrete value of the compact payload string. -/
theorem c6_set_data_payload_witness :
    pyToInt (.int 47016) = some 47016
    ∧ (pyArgList (.scalar (.int 100))).mapM pyToInt = some [100]
    ∧ (set_request (.int 47016) (.scalar (.int 100))
        = some ("Indevolt.SetData", ⟨dumpsSetData [':'] [','] 16 47016 [100]⟩)
       ∧ ' ' ∉ (String.mk (dumpsSetData [':'] [','] 16 47016 [100])).data)
    ∧ (⟨dumpsSetData [':'] [','] 16 47016 [100]⟩ : String)
        = "\x7b\"f\":16,\"t\":47016,\"v\":[100]\x7d" :=
  ⟨rfl, by decide,
   c6_set_data_payload (.int 47016) 47016 (.scalar (.int 100)) [100] rfl (by decide),
   by decide⟩

/-- C7: on an HTTP 200 body shaped `\x7b"device": \x7b"type": ty, ...\x7d,
...\x7d`, `get_config` returns the body with `generation` set in the
`device` sub-object — 2 exactly when the type is `"CMS-SP2000"` or
`"CMS-SF2000"`, 1 for any other type value — and with every other key of
the body and of the device sub-object unchanged.  The enrichment is a pure
function of the received body (the model consumes a single outcome, so no
further network exchange can occur). -/
theorem c7_get_config_enrichment (kvs dkvs : List (String × Json)) (ty : Json)
    (hdev : objGet kvs "device" = some (.obj dkvs))
    (hty : objGet dkvs "type" = some ty) :
    get_config (.response 200 (.obj kvs))
      = .ok (.obj (objSet kvs "device"
          (.obj (objSet dkvs "generation" (.num (genOf ty))))))
    ∧ ((ty = .str "CMS-SP2000" ∨ ty = .str "CMS-SF2000") → genOf ty = 2)
    ∧ (ty ≠ .str "CMS-SP2000" → ty ≠ .str "CMS-SF2000" → genOf ty = 1)
    ∧ objGet (objSet dkvs "generation" (.num (genOf ty))) "generation"
        = some (.num (genOf ty))
    ∧ (∀ k, k ≠ "generation" →
        objGet (objSet dkvs "generation" (.num (genOf ty))) k = objGet dkvs k)
    ∧ (∀ k, k ≠ "device" →
        objGet (objSet kvs "device"
          (.obj (objSet dkvs "generation" (.num (genOf ty))))) k
          = objGet kvs k) := by
  refine ⟨?_, ?_, ?_, objGet_objSet_self _ _ _,
          fun k hk => objGet_objSet_ne _ _ _ _ hk,
          fun k hk => objGet_objSet_ne _ _ _ _ hk⟩
  · simp [get_config, enrich, pyContains, objGet_any hdev, hdev,
          objGet_any hty, hty]
  · rintro (rfl | rfl) <;> rfl
  · intro h1 h2
    unfold genOf
    split <;> simp_all

/-- Witness for C7 at a concrete body with `device.type = "CMS-SP2000"`
and one extra key at each level. -/
theorem c7_get_config_enrichment_witness :
    objGet [("device", Json.obj [("type", Json.str "CMS-SP2000"), ("mac", Json.str "aa")]),
            ("ver", Json.num 7)] "device"
      = some (.obj [("type", Json.str "CMS-SP2000"), ("mac", Json.str "aa")])
    ∧ objGet [("type", Json.str "CMS-SP2000"), ("mac", Json.str "aa")] "type"
      = some (.str "CMS-SP2000")
    ∧ (get_config (.response 200 (.obj
          [("device", .obj [("type", .str "CMS-SP2000"), ("mac", .str "aa")]),
           ("ver", .num 7)]))
        = .ok (.obj (objSet
            [("device", .obj [("type", .str "CMS-SP2000"), ("mac", .str "aa")]),
             ("ver", .num 7)] "device"
            (.obj (objSet [("type", .str "CMS-SP2000"), ("mac", .str "aa")]
              "generation" (.num (genOf (.str "CMS-SP2000")))))))
       ∧ ((Json.str "CMS-SP2000" = .str "CMS-SP2000"
            ∨ Json.str "CMS-SP2000" = .str "CMS-SF2000")
          → genOf (.str "CMS-SP2000") = 2)
       ∧ (Json.str "CMS-SP2000" ≠ .str "CMS-SP2000"
          → Json.str "CMS-SP2000" ≠ .str "CMS-SF2000"
          → genOf (.str "CMS-SP2000") = 1)
       ∧ objGet (objSet [("type", .str "CMS-SP2000"), ("mac", .str "aa")]
            "generation" (.num (genOf (.str "CMS-SP2000")))) "generation"
          = some (.num (genOf (.str "CMS-SP2000")))
       ∧ (∀ k, k ≠ "generation" →
            objGet (objSet [("type", .str "CMS-SP2000"), ("mac", .str "aa")]
              "generation" (.num (genOf (.str "CMS-SP2000")))) k
            = objGet [("type", .str "CMS-SP2000"), ("mac", .str "aa")] k)
       ∧ (∀ k, k ≠ "device" →
            objGet (objSet
              [("device", .obj [("type", .str "CMS-SP2000"), ("mac", .str "aa")]),
               ("ver", .num 7)] "device"
              (.obj (objSet [("type", .str "CMS-SP2000"), ("mac", .str "aa")]
                "generation" (.num (genOf (.str "CMS-SP2000")))))) k
            = objGet [("device", .obj [("type", .str "CMS-SP2000"), ("mac", .str "aa")]),
                      ("ver", .num 7)] k)) :=
  ⟨rfl, rfl,
   c7_get_config_enrichment
     [("device", .obj [("type", .str "CMS-SP2000"), ("mac", .str "aa")]),
      ("ver", .num 7)]
     [("type", .str "CMS-SP2000"), ("mac", .str "aa")]
     (.str "CMS-SP2000") rfl rfl⟩

end Indevolt
